import Mathlib

/-!
Verification of the Trello assistant chat bot (EpicVillage/Trello-Bot).

This file gives a shallow embedding, in Lean 4, of the parts of the
repository that its specification makes claims about:

* `AuthManager` (src/bot.js, class AuthManager): admin list, authorized
  users/groups, pending access requests;
* `TokenManager` (src/trello-service.js, class TokenManager): per-chat
  credential records with a process wide default pair;
* `ConfigManager` (src/connection-manager.js, class ConfigManager):
  per-chat board/list configuration;
* `ConnectionManager` (src/connection-manager.js): health check loop,
  reconnect attempts and status reporting;
* the conversation session store and its message handlers
  (`handleMentions`, `handleSessionMessage`, `handleWorkspaceSetup`,
  `handleRemoveWorkspaceMsg` in src/bot.js, class TrelloAssistantBot);
* the free-text structuring function `extractUrlsFromText` (src/bot.js).

JavaScript state (`this.authorized`, `this.tokens`, the `userSessions`
map, ...) is passed explicitly; each operation returns the new state
together with its JS return value.  File backed stores are modelled by
the decoded document they persist: every mutator in the source rereads
the file, mutates the in-memory copy and writes it back, so the store
content after each operation is exactly the value threaded here.
Asynchronous calls that can reject (Telegram sends, Trello list
fetches) are modelled with `Except`; a handler returns its final state
together with `Except.error e` when an exception escapes it, matching
the JS mutations performed before the throw.
-/

namespace TrelloBot

/-! ### AuthManager (src/bot.js lines 1837-2087) -/

/-- An access request as pushed by `addAccessRequest`. -/
structure AccessRequest where
  userId : String
  userName : String
  chatId : String
  chatTitle : String
  type : String
  timestamp : String
  status : String
deriving DecidableEq, Repr

/-- The document persisted in `data/authorized.json`
(`this.authorized` in class AuthManager). -/
structure AuthState where
  users : List String
  groups : List String
  pendingRequests : List AccessRequest
deriving DecidableEq, Repr

/-- `loadAuthorized`: reread the store, then push every admin id that is
not already in `users` (bot.js lines 1867-1881). -/
def loadAuthorized (adminIds : List String) (stored : AuthState) : AuthState :=
  { stored with
    users := adminIds.foldl
      (fun us adminId => if us.contains adminId then us else us ++ [adminId])
      stored.users }

/-- `isAdmin(userId)` (bot.js line 1891). -/
def isAdmin (adminIds : List String) (userId : String) : Bool :=
  adminIds.contains userId

/-- `isAuthorizedUser(userId)` (bot.js lines 1895-1898). -/
def isAuthorizedUser (adminIds : List String) (stored : AuthState) (userId : String) : Bool :=
  (loadAuthorized adminIds stored).users.contains userId

/-- `isAuthorizedGroup(groupId)` (bot.js lines 1900-1903). -/
def isAuthorizedGroup (adminIds : List String) (stored : AuthState) (groupId : String) : Bool :=
  (loadAuthorized adminIds stored).groups.contains groupId

/-- `msg.from` of a Telegram message (the fields the bot reads). -/
structure MsgFrom where
  id : Int
  firstName : Option String := none
  username : Option String := none
deriving DecidableEq, Repr

/-- `msg.chat` of a Telegram message. -/
structure MsgChat where
  id : Int
  type : String
deriving DecidableEq, Repr

/-- The slice of a Telegram message the handlers consult. -/
structure Msg where
  msgFrom : MsgFrom
  chat : MsgChat
  text : Option String := none
deriving DecidableEq, Repr

/-- `msg.chat.type === 'group' || msg.chat.type === 'supergroup'`. -/
def msgIsGroup (msg : Msg) : Bool :=
  msg.chat.type == "group" || msg.chat.type == "supergroup"

/-- `isAuthorized(msg)` (bot.js lines 1905-1922): admins always pass;
group chats are decided by the group id, private chats by the sender id. -/
def isAuthorized (adminIds : List String) (stored : AuthState) (msg : Msg) : Bool :=
  let userId := toString msg.msgFrom.id
  let chatId := toString msg.chat.id
  let isGroup := msgIsGroup msg
  if isAdmin adminIds userId then
    true
  else if isGroup then
    isAuthorizedGroup adminIds stored chatId
  else
    isAuthorizedUser adminIds stored userId

/-- `unauthorizeUser(userId)` (bot.js lines 1936-1952).  Returns the
stored state after the call (unchanged unless `saveAuthorized` ran)
together with the JS boolean result. -/
def unauthorizeUser (adminIds : List String) (stored : AuthState) (userId : String) :
    AuthState × Bool :=
  let auth := loadAuthorized adminIds stored
  if isAdmin adminIds userId then
    (stored, false)
  else if auth.users.contains userId then
    ({ auth with users := auth.users.erase userId }, true)
  else
    (stored, false)

/-- `addAccessRequest(userId, userName, chatId, chatTitle, type)`
(bot.js lines 1979-2003).  The duplicate check matches on
`(userId, chatId)` only, with no condition on `status`. -/
def addAccessRequest (adminIds : List String) (stored : AuthState)
    (userId userName chatId chatTitle type timestamp : String) :
    AuthState × Option AccessRequest :=
  let auth := loadAuthorized adminIds stored
  let request : AccessRequest :=
    { userId := userId, userName := userName, chatId := chatId,
      chatTitle := chatTitle, type := type, timestamp := timestamp,
      status := "pending" }
  let alreadyExists := auth.pendingRequests.any
    (fun req => req.userId == request.userId && req.chatId == request.chatId)
  if !alreadyExists then
    ({ auth with pendingRequests := auth.pendingRequests ++ [request] }, some request)
  else
    (stored, none)

/-- `rejectRequest(requestIndex)` (bot.js lines 2029-2039): flip the
request at the index to `rejected` and persist. -/
def rejectRequest (adminIds : List String) (stored : AuthState) (requestIndex : Nat) :
    AuthState × Option AccessRequest :=
  let auth := loadAuthorized adminIds stored
  if h : requestIndex < auth.pendingRequests.length then
    let request := auth.pendingRequests.get ⟨requestIndex, h⟩
    let request' := { request with status := "rejected" }
    ({ auth with pendingRequests := auth.pendingRequests.set requestIndex request' },
      some request')
  else
    (stored, none)

/-- At most one pending request per `(userId, chatId)` pair: no two
distinct list entries are both pending with the same pair. -/
def atMostOnePendingPerPair (l : List AccessRequest) : Prop :=
  l.Pairwise (fun a b =>
    ¬(a.status = "pending" ∧ b.status = "pending" ∧ a.userId = b.userId ∧ a.chatId = b.chatId))

/-! ### TokenManager (src/trello-service.js lines 217-453)

The `data/tokens.json` store is modelled by its decrypted content: an
association list from chat id (stringified) to credential record.  The
AES round trip of `saveTokens`/`loadTokens` is a bijection on the
records and is elided. -/

/-- One entry of `this.tokens` (trello-service.js `setToken`). -/
structure TokenRecord where
  token : String
  apiKey : String
  workspace : String
  addedAt : String
  lastUsed : String
deriving DecidableEq, Repr

/-- The decrypted `data/tokens.json` document. -/
abbrev TokenStore := List (String × TokenRecord)

/-- Association-list lookup (JS object property access). -/
def storeLookup {α : Type} (store : List (String × α)) (key : String) : Option α :=
  (store.find? (fun p => p.1 == key)).map Prod.snd

/-- Association-list update (JS object property assignment). -/
def storeInsert {α : Type} (store : List (String × α)) (key : String) (v : α) :
    List (String × α) :=
  (store.filter (fun p => p.1 != key)) ++ [(key, v)]

/-- Association-list removal (JS `delete obj[key]`). -/
def storeErase {α : Type} (store : List (String × α)) (key : String) :
    List (String × α) :=
  store.filter (fun p => p.1 != key)

/-- The triple `getToken` resolves for a chat. -/
structure TokenData where
  apiKey : String
  token : String
  workspace : String
deriving DecidableEq, Repr

/-- JavaScript `a || b` on a string: `a` unless it is falsy (empty). -/
def jsOrStr (a b : String) : String :=
  if a = "" then b else a

/-- JavaScript `a || b` where `a` may be `null`/`undefined`. -/
def jsOrOpt (a : Option String) (b : String) : String :=
  match a with
  | some s => jsOrStr s b
  | none => b

/-- `setToken(chatId, token, apiKey = null, workspace = null)`
(trello-service.js lines 320-330). -/
def setToken (defaultApiKey : String) (store : TokenStore) (chatId : Int)
    (token : String) (apiKey workspace : Option String) (now : String) : TokenStore :=
  storeInsert store (toString chatId)
    { token := token
      apiKey := jsOrOpt apiKey defaultApiKey
      workspace := jsOrOpt workspace "Unknown Workspace"
      addedAt := now
      lastUsed := now }

/-- `getToken(chatId)` (trello-service.js lines 332-354).  A read that
refreshes `lastUsed` on hit; absence of a record resolves to the
process-wide default pair. -/
def getToken (defaultApiKey defaultToken : String) (store : TokenStore)
    (chatId : Int) (now : String) : TokenStore × TokenData :=
  let chatIdStr := toString chatId
  match storeLookup store chatIdStr with
  | some record =>
      (storeInsert store chatIdStr { record with lastUsed := now },
        { apiKey := jsOrStr record.apiKey defaultApiKey
          token := record.token
          workspace := record.workspace })
  | none =>
      (store,
        { apiKey := defaultApiKey, token := defaultToken, workspace := "Default Workspace" })

/-- `removeToken(chatId)` (trello-service.js lines 356-364). -/
def removeToken (store : TokenStore) (chatId : Int) : TokenStore × Bool :=
  let chatIdStr := toString chatId
  if (storeLookup store chatIdStr).isSome then
    (storeErase store chatIdStr, true)
  else
    (store, false)

/-- `hasCustomToken(chatId)` (trello-service.js lines 366-369). -/
def hasCustomToken (store : TokenStore) (chatId : Int) : Bool :=
  (storeLookup store (toString chatId)).isSome

/-- Result of `validateToken` (trello-service.js lines 395-412): the
live round trip against the tracking service, supplied as an oracle. -/
structure ValidationResult where
  valid : Bool
  username : Option String := none
  fullName : Option String := none
  email : Option String := none
  error : Option String := none
deriving DecidableEq, Repr

/-! ### ConfigManager (src/connection-manager.js lines 83-328) -/

/-- One chat's entry in `data/config.json`. -/
structure ChatConfig where
  boardId : Option String := none
  defaultListId : Option String := none
  updatedAt : Option String := none
deriving DecidableEq, Repr

/-- The `data/config.json` document (per-chat part). -/
abbrev ConfigStore := List (String × ChatConfig)

/-- `getChatConfig(chatId)`: `config[chatId] || {}`. -/
def getChatConfig (store : ConfigStore) (chatId : Int) : ChatConfig :=
  (storeLookup store (toString chatId)).getD {}

/-- `clearChatConfig(chatId)`: `delete config[chatId]`. -/
def clearChatConfig (store : ConfigStore) (chatId : Int) : ConfigStore :=
  storeErase store (toString chatId)

/-! ### ConnectionManager (src/connection-manager.js lines 1-78)

The backoff delay is held in `ℚ`: every value the code can reach
(`5000 * 1.5 ^ k` capped at `60000`) is exactly representable as an
IEEE double, so rational arithmetic coincides with the JS numbers. -/

/-- The supervisor's mutable fields. -/
structure ConnectionManager where
  isConnected : Bool
  reconnectAttempts : Nat
  maxReconnectAttempts : Nat
  reconnectDelay : ℚ
  lastSuccessfulConnection : Option Nat
deriving DecidableEq, Repr

/-- The constructor state (connection-manager.js lines 2-10). -/
def ConnectionManager.init : ConnectionManager :=
  { isConnected := false
    reconnectAttempts := 0
    maxReconnectAttempts := 10
    reconnectDelay := 5000
    lastSuccessfulConnection := none }

/-- What one `handleDisconnection` invocation did. -/
inductive ReconnectOutcome where
  /-- Early return at the attempt cap: nothing scheduled. -/
  | maxedOut
  /-- Stop/wait/start succeeded: counters reset. -/
  | reconnected
  /-- Stop/start threw: backoff grown and another attempt scheduled. -/
  | retryScheduled (delay : ℚ)
deriving DecidableEq, Repr

/-- `handleDisconnection()` (connection-manager.js lines 34-60).
`stopStartOk` is the outcome of the `stopPolling`/`startPolling`
round trip inside the `try`. -/
def handleDisconnection (stopStartOk : Bool) (cm : ConnectionManager) :
    ConnectionManager × ReconnectOutcome :=
  if cm.reconnectAttempts ≥ cm.maxReconnectAttempts then
    (cm, .maxedOut)
  else
    let cm1 := { cm with reconnectAttempts := cm.reconnectAttempts + 1 }
    if stopStartOk then
      ({ cm1 with isConnected := true, reconnectAttempts := 0, reconnectDelay := 5000 },
        .reconnected)
    else
      let delay := min (cm1.reconnectDelay * (3 / 2 : ℚ)) 60000
      ({ cm1 with reconnectDelay := delay }, .retryScheduled delay)

/-- One tick of the health-check interval (connection-manager.js lines
17-31).  `getMeOk` is the outcome of the `getMe` liveness probe. -/
def healthCheckTick (getMeOk stopStartOk : Bool) (now : Nat) (cm : ConnectionManager) :
    ConnectionManager × Option ReconnectOutcome :=
  if getMeOk then
    ({ cm with
        isConnected := true
        lastSuccessfulConnection := some now
        reconnectAttempts := 0
        reconnectDelay := 5000 }, none)
  else
    let cm1 := { cm with isConnected := false }
    let (cm2, outcome) := handleDisconnection stopStartOk cm1
    (cm2, some outcome)

/-- The record returned by `getStatus()` (connection-manager.js lines 69-77). -/
structure ConnStatus where
  isConnected : Bool
  reconnectAttempts : Nat
  lastSuccessfulConnection : Option Nat
  uptime : Nat
deriving DecidableEq, Repr

/-- `getStatus()` (connection-manager.js lines 69-77). -/
def getStatus (now : Nat) (cm : ConnectionManager) : ConnStatus :=
  { isConnected := cm.isConnected
    reconnectAttempts := cm.reconnectAttempts
    lastSuccessfulConnection := cm.lastSuccessfulConnection
    uptime := match cm.lastSuccessfulConnection with
      | some t => (now - t) / 1000
      | none => 0 }

/-! ### JavaScript string primitives

The inputs the bot handles are ASCII-ranged chat text; `\s` is modelled
by the ASCII whitespace class (space, tab, newline, carriage return,
vertical tab, form feed). -/

/-- The characters JavaScript `\s` and `trim()` treat as whitespace
(ASCII range). -/
def jsIsSpace (c : Char) : Bool :=
  c == ' ' || c == '\t' || c == '\n' || c == '\r' || c == '\x0b' || c == '\x0c'

/-- `text.split('\n')` on character lists (keeps empty pieces, as the
JS split does). -/
def splitNlAux : List Char → List Char → List String
  | [], acc => [String.mk acc.reverse]
  | c :: cs, acc =>
    if c == '\n' then String.mk acc.reverse :: splitNlAux cs []
    else splitNlAux cs (c :: acc)

/-- `text.split('\n')`. -/
def jsSplitNl (s : String) : List String :=
  splitNlAux s.toList []

/-- `text.startsWith(prefixStr)`. -/
def jsStartsWith (s pre : String) : Bool :=
  pre.toList.isPrefixOf s.toList

/-- JavaScript `String.prototype.trim()`. -/
def jsTrim (s : String) : String :=
  String.mk (((s.toList.dropWhile jsIsSpace).reverse.dropWhile jsIsSpace).reverse)

/-- Case-insensitive literal prefix match: on success returns the rest
of the input (original case preserved).  The pattern is lowercase. -/
def stripCI (pat : List Char) (s : List Char) : Option (List Char) :=
  match pat, s with
  | [], rest => some rest
  | _ :: _, [] => none
  | p :: ps, c :: cs => if c.toLower == p then stripCI ps cs else none

/-- Try the URL regex `/https?:\/\/[^\s]+/i` anchored at the start of
the input; on a match return the matched text and the rest.  The
optional `s` is greedy; since `s ≠ :` the greedy choice is the only
possible one, so no further backtracking exists. -/
def urlMatchAt (cs : List Char) : Option (List Char × List Char) :=
  match stripCI ['h', 't', 't', 'p'] cs with
  | none => none
  | some afterHttp =>
    let afterScheme :=
      match stripCI ['s', ':', '/', '/'] afterHttp with
      | some rest => some rest
      | none => stripCI [':', '/', '/'] afterHttp
    match afterScheme with
    | none => none
    | some body =>
      let urlTail := body.takeWhile (fun c => !jsIsSpace c)
      let rest := body.dropWhile (fun c => !jsIsSpace c)
      if urlTail.isEmpty then none
      else some (cs.take (cs.length - rest.length), rest)

/-- Global scan of `text.match(/(https?:\/\/[^\s]+)/gi)`: leftmost
matches, resuming after each match.  The fuel starts at the input
length; every loop step consumes at least one character, so the fuel
never runs out on the initial call. -/
def scanUrlsAux : Nat → List Char → List String
  | 0, _ => []
  | _, [] => []
  | fuel + 1, c :: cs =>
    match urlMatchAt (c :: cs) with
    | some (m, rest) => String.mk m :: scanUrlsAux fuel rest
    | none => scanUrlsAux fuel cs

/-- All URL matches in a string, in order. -/
def scanUrls (s : String) : List String :=
  scanUrlsAux s.toList.length s.toList

/-- `str.replace(target, '')` with a plain-string pattern: remove the
first literal occurrence of `target`. -/
def removeFirst (cs target : List Char) : List Char :=
  match cs with
  | [] => []
  | c :: rest =>
    if target.isPrefixOf (c :: rest) then (c :: rest).drop target.length
    else c :: removeFirst rest target

/-- `line.replace(url, '').trim()` applied over a list of matches, as
the `forEach` loops in `extractUrlsFromText` do. -/
def stripUrlsAndTrim (line : String) (urls : List String) : String :=
  urls.foldl (fun l url => jsTrim (String.mk (removeFirst l.toList url.toList))) line

/-- `text.replace(/(https?:\/\/[^\s]+)/gi, '')`: drop every URL match,
keep everything else.  Fueled like `scanUrlsAux`. -/
def removeUrlsAux : Nat → List Char → List Char
  | 0, cs => cs
  | _, [] => []
  | fuel + 1, c :: cs =>
    match urlMatchAt (c :: cs) with
    | some (_, rest) => removeUrlsAux fuel rest
    | none => c :: removeUrlsAux fuel cs

/-- All URL matches removed from a string. -/
def removeUrls (s : String) : String :=
  String.mk (removeUrlsAux s.toList.length s.toList)

/-- `/^[-*•]\s+/.test(line)`. -/
def startsWithBulletMarker (s : String) : Bool :=
  match s.toList with
  | c1 :: c2 :: _ => (c1 == '-' || c1 == '*' || c1 == '•') && jsIsSpace c2
  | _ => false

/-- `/^\d+\.\s+/.test(line)`.  The maximal digit run is the only
candidate: any shorter run is followed by a digit, not by `.`. -/
def startsWithNumberMarker (s : String) : Bool :=
  let cs := s.toList
  let digits := cs.takeWhile Char.isDigit
  if digits.isEmpty then false
  else
    match cs.drop digits.length with
    | '.' :: c :: _ => jsIsSpace c
    | _ => false

/-- `line.replace(/^[-*•]\s+/, '')`. -/
def stripBulletMarker (s : String) : String :=
  match s.toList with
  | c :: rest =>
    if (c == '-' || c == '*' || c == '•') && !(rest.takeWhile jsIsSpace).isEmpty then
      String.mk (rest.dropWhile jsIsSpace)
    else s
  | [] => s

/-- `line.replace(/^\d+\.\s+/, '')`. -/
def stripNumberMarker (s : String) : String :=
  let cs := s.toList
  let digits := cs.takeWhile Char.isDigit
  if digits.isEmpty then s
  else
    match cs.drop digits.length with
    | '.' :: rest =>
      if (rest.takeWhile jsIsSpace).isEmpty then s
      else String.mk (rest.dropWhile jsIsSpace)
    | _ => s

/-- `mainTitle.replace(/\s+/g, ' ')`: collapse every whitespace run to
a single space. -/
def collapseWsAux (prevSpace : Bool) : List Char → List Char
  | [] => []
  | c :: cs =>
    if jsIsSpace c then
      if prevSpace then collapseWsAux true cs
      else ' ' :: collapseWsAux true cs
    else c :: collapseWsAux false cs

/-- Whitespace runs collapsed to single spaces. -/
def collapseWs (s : String) : String :=
  String.mk (collapseWsAux false s.toList)

/-! ### extractUrlsFromText (src/bot.js lines 1546-1627) -/

/-- The record `extractUrlsFromText` returns. -/
structure ExtractResult where
  cleanText : String
  urls : List String
  listItems : List String
  description : String
deriving DecidableEq, Repr

/-- The per-line body of the `for` loop over `lines[1..]` in
`extractUrlsFromText`: collect the line's URLs, strip them, then
classify the remainder as a (possibly marker-prefixed) list item. -/
def processDetailLine (acc : List String × List String) (line : String) :
    List String × List String :=
  let (urls, listItems) := acc
  let lineUrls := scanUrls line
  let line1 := stripUrlsAndTrim line lineUrls
  let listItems' :=
    if startsWithBulletMarker line1 || startsWithNumberMarker line1 then
      let cleanItem := jsTrim (stripNumberMarker (stripBulletMarker line1))
      if cleanItem != "" then listItems ++ ["- " ++ cleanItem] else listItems
    else if line1 != "" then
      listItems ++ ["- " ++ line1]
    else listItems
  (urls ++ lineUrls, listItems')

/-- `extractUrlsFromText(text)` (bot.js lines 1546-1627). -/
def extractUrlsFromText (text : String) : ExtractResult :=
  let lines := ((jsSplitNl text).map jsTrim).filter (fun l => l != "")
  let (mainTitle0, urls, listItems) :=
    if lines.length > 1 then
      let title := lines.headD ""
      let titleUrls := scanUrls title
      let title1 := stripUrlsAndTrim title titleUrls
      let (urls, listItems) := (lines.drop 1).foldl processDetailLine (titleUrls, [])
      (title1, urls, listItems)
    else
      let titleUrls := scanUrls text
      (stripUrlsAndTrim text titleUrls, titleUrls, ([] : List String))
  let mainTitle := jsTrim (collapseWs mainTitle0)
  let description0 :=
    if listItems.length > 0 then "Details:\n" ++ String.intercalate "\n" listItems
    else ""
  let description :=
    if urls.length > 0 then
      (if description0 != "" then description0 ++ "\n\n" else description0)
        ++ "Links:\n" ++ String.intercalate "\n" (urls.map (fun url => "- " ++ url))
    else description0
  { cleanText := jsOrStr mainTitle (jsTrim (removeUrls text))
    urls := urls
    listItems := listItems
    description := description }

/-! ### Credential parsing (src/bot.js lines 966-997)

The two line-matching regexes of `handleWorkspaceSetup`:
`/API[_\s-]?KEY\s*[:=]?\s*(.+)/i` and `/TOKEN\s*[:=]?\s*(.+)/i`.
Every line they run on has been `trim()`ed, so it never ends in
whitespace; under that invariant the greedy-with-backtracking capture
`\s*[:=]?\s*(.+)` reduces to the case split implemented here. -/

/-- JavaScript falsiness of a possibly missing string. -/
def jsFalsyOpt (o : Option String) : Bool :=
  match o with
  | none => true
  | some s => s == ""

/-- The `[_\s-]` class of the API-key regex. -/
def isKeySep (c : Char) : Bool :=
  c == '_' || c == '-' || jsIsSpace c

/-- The `\s*[:=]?\s*(.+)` tail shared by both credential regexes,
anchored after the keyword: skip whitespace, an optional `:`/`=`, more
whitespace, and capture the (nonempty) rest of the line.  When the
separator is the last character of the line the engine backtracks and
the capture starts at the separator itself. -/
def credCaptureTail (s : List Char) : Option (List Char) :=
  let s1 := s.dropWhile jsIsSpace
  match s1 with
  | [] => none
  | c :: cs =>
    if c == ':' || c == '=' then
      let s2 := cs.dropWhile jsIsSpace
      if s2.isEmpty then some s1 else some s2
    else some s1

/-- `/API[_\s-]?KEY\s*[:=]?\s*(.+)/i` anchored at the start: `API`, an
optional single separator, `KEY`, then the capture tail.  The optional
separator is unambiguous (a separator character is never `k`). -/
def apiKeyMatchAt (s : List Char) : Option (List Char) :=
  match stripCI ['a', 'p', 'i'] s with
  | none => none
  | some r1 =>
    let afterKey :=
      match r1 with
      | c :: cs =>
        if isKeySep c then
          match stripCI ['k', 'e', 'y'] cs with
          | some r => some r
          | none => stripCI ['k', 'e', 'y'] r1
        else stripCI ['k', 'e', 'y'] r1
      | [] => none
    match afterKey with
    | none => none
    | some r2 => credCaptureTail r2

/-- Leftmost search for the API-key regex over a line. -/
def apiKeySearch : List Char → Option (List Char)
  | [] => none
  | c :: cs =>
    match apiKeyMatchAt (c :: cs) with
    | some cap => some cap
    | none => apiKeySearch cs

/-- `/TOKEN\s*[:=]?\s*(.+)/i` anchored at the start. -/
def tokenMatchAt (s : List Char) : Option (List Char) :=
  match stripCI ['t', 'o', 'k', 'e', 'n'] s with
  | none => none
  | some r => credCaptureTail r

/-- Leftmost search for the token regex over a line. -/
def tokenSearch : List Char → Option (List Char)
  | [] => none
  | c :: cs =>
    match tokenMatchAt (c :: cs) with
    | some cap => some cap
    | none => tokenSearch cs

/-- The credential-parsing prelude of `handleWorkspaceSetup` (bot.js
lines 968-989): the labelled-line loop, then the two-line fallback.
`text` is the already trimmed message text. -/
def parseCredentials (text : String) : Option String × Option String :=
  let lines := ((jsSplitNl text).map jsTrim).filter (fun l => l != "")
  let labelled := lines.foldl
    (fun (acc : Option String × Option String) line =>
      match apiKeySearch line.toList with
      | some cap => (some (jsTrim (String.mk cap)), acc.2)
      | none =>
        match tokenSearch line.toList with
        | some cap => (acc.1, some (jsTrim (String.mk cap)))
        | none => acc)
    (none, none)
  if jsFalsyOpt labelled.1 && jsFalsyOpt labelled.2 && lines.length == 2 then
    (some (jsTrim (lines.headD "")), some (jsTrim ((lines.drop 1).headD "")))
  else labelled

/-! ### Conversation sessions and message handlers (src/bot.js)

The handlers read and write the `userSessions` map, the token store,
the chat-config store and the Trello service cache; those four make up
`BotState`.  External effects (Telegram sends, the Trello list fetch,
credential validation) are supplied through `BotEnv`.  A handler
returns its final state together with `Except.error e` when an
exception escapes it — the state then reflects the mutations made
before the throw, exactly as the JS objects would. -/

/-- An entry of the `userSessions` map. -/
structure SessionData where
  idea : Option String := none
  userName : Option String := none
  originalUserId : Option Int := none
deriving DecidableEq, Repr

/-- A conversation session (`handleInteractiveIdea` builds
`type = "addidea"` ones, `handleSetWorkspace` builds
`type = "setworkspace"` ones). -/
structure Session where
  step : String
  type : String
  data : SessionData := {}
  chatId : Int
deriving DecidableEq, Repr

/-- A Trello list as returned by `getBoardLists`. -/
structure BoardList where
  id : String
  name : String
deriving DecidableEq, Repr

/-- The bot's shared mutable state touched by the handlers. -/
structure BotState where
  sessions : List (String × Session)
  tokens : TokenStore
  chatConfigs : ConfigStore
  trelloServices : List String
deriving DecidableEq, Repr

/-- The external collaborators: default credential pair, clock,
Telegram outbound sends (`sendFails m` means sending text `m`
rejects), credential validation, and the Trello list fetch keyed by
`apiKey:token` cache key and board id. -/
structure BotEnv where
  defaultApiKey : String
  defaultToken : String
  now : String
  sendFails : String → Bool
  validate : String → String → ValidationResult
  boardLists : String → String → Except String (List BoardList)

/-- `bot.sendMessage`: rejects (with the text as the error) when the
transport fails. -/
def sendMessage (env : BotEnv) (text : String) : Except String Unit :=
  if env.sendFails text then Except.error text else Except.ok ()

/-- The session key: `group_${chatId}` for group chats, the user id
for private chats (bot.js lines 855-858). -/
def sessionKey (msg : Msg) : String :=
  if msgIsGroup msg then "group_" ++ toString msg.chat.id
  else toString msg.msgFrom.id

/-- `msg.from.first_name || msg.from.username || 'User'`. -/
def jsName (msg : Msg) : String :=
  jsOrOpt msg.msgFrom.firstName (jsOrOpt msg.msgFrom.username "User")

/-- `getTrelloService(chatId)` (bot.js lines 1427-1436): resolve the
chat's credentials and memoise a service under the `apiKey:token` key. -/
def getTrelloService (env : BotEnv) (st : BotState) (chatId : Int) :
    BotState × TokenData :=
  let res := getToken env.defaultApiKey env.defaultToken st.tokens chatId env.now
  let td := res.2
  let key := td.apiKey ++ ":" ++ td.token
  let services' :=
    if st.trelloServices.contains key then st.trelloServices
    else st.trelloServices ++ [key]
  ({ st with tokens := res.1, trelloServices := services' }, td)

/-- Outbound message texts (shortened to their identifying prefix). -/
def cancelledMsg : String := "❌ Operation cancelled."

/-- Message sent when no board is configured for the chat. -/
def noBoardMsg : String := "❌ No board selected. Use /setboard first."

/-- Message sent when the selected board has no lists. -/
def noListsMsg : String := "❌ No lists found in the selected board."

/-- Message sent by the catch block of the idea session handler. -/
def ideaErrorMsg : String := "❌ An error occurred. Please try again with /addidea"

/-- Message sent when the credential blob cannot be parsed. -/
def invalidFormatMsg : String := "❌ Invalid format. Please provide both API_KEY and TOKEN."

/-- Message sent when credential validation fails. -/
def invalidCredsMsg (err : String) : String := "❌ Invalid credentials: " ++ err

/-- Message sent after a successful workspace setup. -/
def workspaceConfiguredMsg (account : String) : String :=
  "✅ Workspace configured successfully! Account: " ++ account

/-- The list-selection prompt (bot.js lines 942-947). -/
def selectListMsg (text : String) : String :=
  "📝 Select a list for your idea: " ++ String.mk (text.toList.take 50)
    ++ (if text.toList.length > 50 then "..." else "")

/-- Message sent after removing a custom workspace. -/
def workspaceRemovedMsg : String :=
  "✅ Custom workspace removed. Now using default workspace."

/-- Message sent when no custom workspace exists. -/
def usingDefaultWorkspaceMsg : String := "ℹ️ This chat is using the default workspace."

/-- Message sent when `removeToken` reports failure. -/
def removeFailedMsg : String := "❌ Failed to remove custom workspace."

/-- How the `try` block of the idea branch of `handleSessionMessage`
ended.  A `return this.bot.sendMessage(...)` inside the `try` leaves
the function before the promise settles, so its rejection bypasses the
`catch` (`finished`); only awaits inside the block reach the `catch`
(`caught`). -/
inductive TryResult where
  | finished (r : Except String Unit)
  | caught (e : String)
deriving Repr

/-- The `try` block of the `waiting_for_idea` branch (bot.js lines
909-950).  `st` already holds the advanced session at `key`, as the JS
in-place mutation does before the first await. -/
def ideaSessionTryBody (env : BotEnv) (msg : Msg) (st : BotState) :
    BotState × TryResult :=
  let chatId := msg.chat.id
  let text := msg.text.getD ""
  let key := sessionKey msg
  let config := getChatConfig st.chatConfigs chatId
  if jsFalsyOpt config.boardId then
    let st1 := { st with sessions := storeErase st.sessions key }
    (st1, .finished (sendMessage env noBoardMsg))
  else
    let boardId := config.boardId.getD ""
    let stTd := getTrelloService env st chatId
    let st1 := stTd.1
    let td := stTd.2
    match env.boardLists (td.apiKey ++ ":" ++ td.token) boardId with
    | Except.error e => (st1, .caught e)
    | Except.ok lists =>
      if lists.isEmpty then
        let st2 := { st1 with sessions := storeErase st1.sessions key }
        (st2, .finished (sendMessage env noListsMsg))
      else
        match sendMessage env (selectListMsg text) with
        | Except.ok _ => (st1, .finished (Except.ok ()))
        | Except.error e => (st1, .caught e)

/-- `handleWorkspaceSetup(msg, session)` (bot.js lines 960-1039).
There is no `try`/`catch` here: a rejected send escapes to the caller
with the state as mutated so far. -/
def handleWorkspaceSetup (env : BotEnv) (msg : Msg) (st : BotState) :
    BotState × Except String Unit :=
  let chatId := msg.chat.id
  let text := jsTrim (msg.text.getD "")
  let key := sessionKey msg
  let parsed := parseCredentials text
  if jsFalsyOpt parsed.1 || jsFalsyOpt parsed.2 then
    (st, sendMessage env invalidFormatMsg)
  else
    let apiKey := parsed.1.getD ""
    let token := parsed.2.getD ""
    let validation := env.validate apiKey token
    if !validation.valid then
      (st, sendMessage env (invalidCredsMsg (jsOrOpt validation.error "")))
    else
      let tokens' := setToken env.defaultApiKey st.tokens chatId token (some apiKey)
        (some (jsOrOpt validation.fullName (jsOrOpt validation.username "Custom Workspace")))
        env.now
      let st1 :=
        { st with
          tokens := tokens'
          sessions := storeErase st.sessions key
          trelloServices := []
          chatConfigs := clearChatConfig st.chatConfigs chatId }
      (st1, sendMessage env
        (workspaceConfiguredMsg (jsOrOpt validation.fullName (jsOrOpt validation.username ""))))

/-- The session update performed at the top of the `waiting_for_idea`
branch of `handleSessionMessage` (bot.js lines 910-915): record the
idea text, fill in the author name when absent, and advance the step. -/
def advancedIdeaSession (msg : Msg) (session : Session) : Session :=
  let text := msg.text.getD ""
  let data1 := { session.data with idea := some text }
  let data2 :=
    if jsFalsyOpt data1.userName then { data1 with userName := some (jsName msg) }
    else data1
  { session with step := "waiting_for_list", data := data2 }

/-- The in-place session touch-up for group chats in `handleMentions`
(bot.js lines 869-872): refresh the author fields while the session is
still awaiting the idea text. -/
def mentionUpdatedSession (msg : Msg) (session : Session) : Session :=
  if msgIsGroup msg && session.step == "waiting_for_idea" then
    { session with data :=
      { session.data with
        userName := some (jsName msg)
        originalUserId := some msg.msgFrom.id } }
  else session

/-- The `catch` block of the `waiting_for_idea` branch (bot.js lines
951-956): on a caught exception, delete the session and send the
generic failure message; otherwise pass the try-block outcome through. -/
def ideaSessionCatch (env : BotEnv) (key : String) (res : BotState × TryResult) :
    BotState × Except String Unit :=
  match res with
  | (st2, .finished r) => (st2, r)
  | (st2, .caught _) =>
    ({ st2 with sessions := storeErase st2.sessions key }, sendMessage env ideaErrorMsg)

/-- `handleSessionMessage(msg, session)` (bot.js lines 893-958). -/
def handleSessionMessage (env : BotEnv) (msg : Msg) (session : Session) (st : BotState) :
    BotState × Except String Unit :=
  let key := sessionKey msg
  if session.type == "setworkspace" then
    handleWorkspaceSetup env msg st
  else if session.step == "waiting_for_idea" then
    let session1 := advancedIdeaSession msg session
    let st1 := { st with sessions := storeInsert st.sessions key session1 }
    ideaSessionCatch env key (ideaSessionTryBody env msg st1)
  else (st, Except.ok ())

/-- `handleMentions(msg)` (bot.js lines 847-891) — the per-message
entry point behind the `message` listener.  The no-session mention
branch (quick idea/task) never touches `userSessions` and is modelled
as leaving the state unchanged. -/
def handleMentions (env : BotEnv) (msg : Msg) (st : BotState) :
    BotState × Except String Unit :=
  match msg.text with
  | none => (st, Except.ok ())
  | some text =>
    if jsStartsWith text "/" && text != "/cancel" then (st, Except.ok ())
    else
      let key := sessionKey msg
      let sessionOpt := storeLookup st.sessions key
      if text == "/cancel" && sessionOpt.isSome then
        ({ st with sessions := storeErase st.sessions key }, sendMessage env cancelledMsg)
      else
        match sessionOpt with
        | some session =>
          let session1 := mentionUpdatedSession msg session
          let st1 := { st with sessions := storeInsert st.sessions key session1 }
          handleSessionMessage env msg session1 st1
        | none => (st, Except.ok ())

/-- `handleRemoveWorkspace(msg)` (bot.js lines 1487-1507). -/
def handleRemoveWorkspaceMsg (env : BotEnv) (msg : Msg) (st : BotState) :
    BotState × Except String Unit :=
  let chatId := msg.chat.id
  if !hasCustomToken st.tokens chatId then
    (st, sendMessage env usingDefaultWorkspaceMsg)
  else
    let (tokens', removed) := removeToken st.tokens chatId
    if removed then
      let st1 :=
        { st with
          tokens := tokens'
          trelloServices := []
          chatConfigs := clearChatConfig st.chatConfigs chatId }
      (st1, sendMessage env workspaceRemovedMsg)
    else
      (st, sendMessage env removeFailedMsg)

/-! ### Concrete sample data used by witnesses and counterexamples -/

/-- A pending access request. -/
def reqPending : AccessRequest :=
  { userId := "5", userName := "Bob", chatId := "9", chatTitle := "Chat",
    type := "user", timestamp := "t0", status := "pending" }

/-- The same request after rejection. -/
def reqRejected : AccessRequest := { reqPending with status := "rejected" }

/-- An authorization store holding one pending request. -/
def authWithPending : AuthState :=
  { users := [], groups := [], pendingRequests := [reqPending] }

/-- An authorization store holding one rejected request. -/
def authWithRejected : AuthState :=
  { users := [], groups := [], pendingRequests := [reqRejected] }

/-- An authorization store with one plain user and one group. -/
def authSample : AuthState :=
  { users := ["7"], groups := ["-300"], pendingRequests := [] }

/-- An environment whose transport always rejects and whose validation
always fails. -/
def envAllSendsFail : BotEnv :=
  { defaultApiKey := "DK", defaultToken := "DT", now := "t0"
    sendFails := fun _ => true
    validate := fun _ _ => { valid := false, error := some "invalid key" }
    boardLists := fun _ _ => Except.ok [] }

/-- An environment whose transport always delivers, validation fails,
and every board has one list. -/
def envSendsOk : BotEnv :=
  { defaultApiKey := "DK", defaultToken := "DT", now := "t0"
    sendFails := fun _ => false
    validate := fun _ _ => { valid := false, error := some "invalid key" }
    boardLists := fun _ _ => Except.ok [{ id := "L1", name := "Todo" }] }

/-- A workspace-setup session for private chat `5`. -/
def wsSession : Session :=
  { step := "waiting_for_credentials", type := "setworkspace", chatId := 5 }

/-- Bot state holding only `wsSession` under key `"5"`. -/
def wsState : BotState :=
  { sessions := [("5", wsSession)], tokens := [], chatConfigs := [], trelloServices := [] }

/-- A private-chat message from user `5` whose text parses as neither
credentials nor a command. -/
def wsMsg : Msg :=
  { msgFrom := { id := 5 }, chat := { id := 5, type := "private" }, text := some "garbage" }

/-- An idea-capture session for private chat `7`. -/
def ideaSession : Session :=
  { step := "waiting_for_idea", type := "addidea", chatId := 7 }

/-- Bot state holding only `ideaSession` under key `"7"`, with no board
configured. -/
def ideaStateNoBoard : BotState :=
  { sessions := [("7", ideaSession)], tokens := [], chatConfigs := [], trelloServices := [] }

/-- Bot state holding `ideaSession` under key `"7"` with board `B1`
configured for chat `7`. -/
def ideaStateWithBoard : BotState :=
  { sessions := [("7", ideaSession)], tokens := []
    chatConfigs := [("7", { boardId := some "B1" })], trelloServices := [] }

/-- A private-chat plain-text message from user `7`. -/
def ideaMsg : Msg :=
  { msgFrom := { id := 7 }, chat := { id := 7, type := "private" }, text := some "my idea" }

/-- A credential record for witnesses. -/
def sampleTokenRecord : TokenRecord :=
  { token := "tok", apiKey := "key", workspace := "WS", addedAt := "t0", lastUsed := "t0" }

/-- Bot state for chat `9` holding a custom credential record and a
board/list selection. -/
def removeWsState : BotState :=
  { sessions := [], tokens := [("9", sampleTokenRecord)]
    chatConfigs := [("9", { boardId := some "B9", defaultListId := some "L9" })]
    trelloServices := ["key:tok"] }

/-- A message in private chat `9`. -/
def removeWsMsg : Msg :=
  { msgFrom := { id := 9 }, chat := { id := 9, type := "private" }, text := some "/removeworkspace" }

/-- A connection supervisor at the attempt cap. -/
def cmMaxed : ConnectionManager :=
  { isConnected := true, reconnectAttempts := 10, maxReconnectAttempts := 10
    reconnectDelay := 60000, lastSuccessfulConnection := some 1000 }

/-! ### Helper lemmas about the association-list stores -/

theorem storeLookup_storeErase {α : Type} (store : List (String × α)) (k : String) :
    storeLookup (storeErase store k) k = none := by
  unfold storeLookup storeErase
  induction store with
  | nil => rfl
  | cons p rest ih =>
    by_cases h : p.1 = k
    · have hf : (p.1 != k) = false := by simp [h]
      simp only [List.filter, hf]
      exact ih
    · have hne : (p.1 == k) = false := beq_false_of_ne h
      have ht : (p.1 != k) = true := by simp [bne, hne]
      simp only [List.filter, ht]
      rw [List.find?_cons_of_neg _ (by simp [hne])]
      exact ih

theorem storeLookup_storeInsert_self {α : Type} (store : List (String × α))
    (k : String) (v : α) :
    storeLookup (storeInsert store k v) k = some v := by
  unfold storeLookup storeInsert
  induction store with
  | nil =>
    show Option.map Prod.snd (List.find? (fun p => p.1 == k) [(k, v)]) = some v
    rw [List.find?_cons_of_pos _ (by simp)]
    rfl
  | cons p rest ih =>
    by_cases h : p.1 = k
    · have hf : (p.1 != k) = false := by simp [h]
      simp only [List.filter, hf]
      exact ih
    · have hne : (p.1 == k) = false := beq_false_of_ne h
      have ht : (p.1 != k) = true := by simp [bne, hne]
      simp only [List.filter, ht, List.cons_append]
      rw [List.find?_cons_of_neg _ (by simp [hne])]
      exact ih

theorem loadAuthorized_pendingRequests (adminIds : List String) (stored : AuthState) :
    (loadAuthorized adminIds stored).pendingRequests = stored.pendingRequests := rfl

theorem mentionUpdatedSession_type (msg : Msg) (session : Session) :
    (mentionUpdatedSession msg session).type = session.type := by
  unfold mentionUpdatedSession
  split <;> rfl

theorem mentionUpdatedSession_step (msg : Msg) (session : Session) :
    (mentionUpdatedSession msg session).step = session.step := by
  unfold mentionUpdatedSession
  split <;> rfl

theorem loadAuthorized_groups (adminIds : List String) (stored : AuthState) :
    (loadAuthorized adminIds stored).groups = stored.groups := rfl

/-! ### C1 -/

/-- C1: for every identity listed in `admins`, `isAuthorized` returns
true regardless of the contents of `authorizedUsers` and
`authorizedGroups` (the `stored` state here is arbitrary), and
`unauthorizeUser` of an admin identity always returns false and leaves
the persisted authorization state unchanged. -/
theorem admin_always_authorized_and_unremovable
    (adminIds : List String) (stored : AuthState) (msg : Msg) (uid : String)
    (hmsg : isAdmin adminIds (toString msg.msgFrom.id) = true)
    (huid : isAdmin adminIds uid = true) :
    isAuthorized adminIds stored msg = true ∧
    unauthorizeUser adminIds stored uid = (stored, false) := by
  constructor
  · unfold isAuthorized
    simp [hmsg]
  · unfold unauthorizeUser
    simp [huid]

/-- Witness for C1 at a concrete admin id and a state that authorizes
neither the admin's user id nor the chat. -/
theorem admin_always_authorized_and_unremovable_witness :
    isAuthorized ["42"] authSample
        { msgFrom := { id := 42 }, chat := { id := -300, type := "private" } } = true ∧
    unauthorizeUser ["42"] authSample "42" = (authSample, false) :=
  admin_always_authorized_and_unremovable ["42"] authSample
    { msgFrom := { id := 42 }, chat := { id := -300, type := "private" } } "42"
    (by decide) (by decide)

/-! ### C2 -/

/-- C2: for a message from a non-admin sender, authorization is decided
against the group identity when the chat is a group or supergroup (the
individual sender id is not consulted), and against the sender identity
when the chat is private. -/
theorem nonadmin_authorization_group_vs_private
    (adminIds : List String) (stored : AuthState) (msg : Msg)
    (h : isAdmin adminIds (toString msg.msgFrom.id) = false) :
    isAuthorized adminIds stored msg =
      (if msgIsGroup msg then isAuthorizedGroup adminIds stored (toString msg.chat.id)
       else isAuthorizedUser adminIds stored (toString msg.msgFrom.id)) := by
  unfold isAuthorized
  simp [h]

/-- Witness for C2: a non-admin sender in a group chat is judged by the
group identity (here: the group is authorized although the sender is
not), and in a private chat by the sender identity. -/
theorem nonadmin_authorization_group_vs_private_witness :
    isAuthorized ["42"] authSample
        { msgFrom := { id := 5 }, chat := { id := -300, type := "supergroup" } } =
      (if msgIsGroup { msgFrom := { id := 5 }, chat := { id := -300, type := "supergroup" } } then
        isAuthorizedGroup ["42"] authSample "-300"
       else isAuthorizedUser ["42"] authSample "5") :=
  nonadmin_authorization_group_vs_private ["42"] authSample
    { msgFrom := { id := 5 }, chat := { id := -300, type := "supergroup" } } (by decide)

/-! ### C5 -/

/-- C5: once the reconnect-attempt counter has reached the configured
maximum, a further liveness-probe failure schedules no reconnect
attempt (`handleDisconnection` returns at the cap, leaving the counter
and delay untouched), while `getStatus` still reports the disconnected
state and the attempt count truthfully. -/
theorem reconnect_cap_halts_and_status_truthful
    (cm : ConnectionManager) (stopStartOk : Bool) (now now2 : Nat)
    (h : cm.reconnectAttempts ≥ cm.maxReconnectAttempts) :
    healthCheckTick false stopStartOk now cm =
      ({ cm with isConnected := false }, some ReconnectOutcome.maxedOut) ∧
    (getStatus now2 (healthCheckTick false stopStartOk now cm).1).isConnected = false ∧
    (getStatus now2 (healthCheckTick false stopStartOk now cm).1).reconnectAttempts =
      cm.reconnectAttempts := by
  have htick : healthCheckTick false stopStartOk now cm =
      ({ cm with isConnected := false }, some ReconnectOutcome.maxedOut) := by
    unfold healthCheckTick handleDisconnection
    simp [h]
  refine ⟨htick, ?_, ?_⟩ <;> rw [htick] <;> rfl

/-- Witness for C5 at a supervisor sitting at the cap of 10 attempts. -/
theorem reconnect_cap_halts_and_status_truthful_witness :
    healthCheckTick false true 2000 cmMaxed =
      ({ cmMaxed with isConnected := false }, some ReconnectOutcome.maxedOut) ∧
    (getStatus 3000 (healthCheckTick false true 2000 cmMaxed).1).isConnected = false ∧
    (getStatus 3000 (healthCheckTick false true 2000 cmMaxed).1).reconnectAttempts =
      cmMaxed.reconnectAttempts :=
  reconnect_cap_halts_and_status_truthful cmMaxed true 2000 3000 (by decide)

/-! ### C4 -/

/-- C4: a workspace setup whose parsed credential pair fails external
validation returns the structured validation-error message and leaves
the whole bot state — in particular any prior credential record for the
chat — untouched; no token-store mutation happens before validation
succeeds. -/
theorem setCredential_validation_failure_no_mutation
    (env : BotEnv) (msg : Msg) (st : BotState) (k t : String)
    (hp : parseCredentials (jsTrim (msg.text.getD "")) = (some k, some t))
    (hk : k ≠ "") (ht : t ≠ "")
    (hv : (env.validate k t).valid = false) :
    handleWorkspaceSetup env msg st =
      (st, sendMessage env (invalidCredsMsg (jsOrOpt (env.validate k t).error ""))) := by
  have hfk : jsFalsyOpt (some k) = false := by simp [jsFalsyOpt, hk]
  have hft : jsFalsyOpt (some t) = false := by simp [jsFalsyOpt, ht]
  unfold handleWorkspaceSetup
  simp [hp, hfk, hft, hv]

/-- Witness for C4: a two-line credential blob that parses but fails
the (oracle) validation; the state with a prior record is returned
unchanged. -/
theorem setCredential_validation_failure_no_mutation_witness :
    handleWorkspaceSetup envSendsOk
        { msgFrom := { id := 9 }, chat := { id := 9, type := "private" },
          text := some "mykey\nmytoken" } removeWsState =
      (removeWsState,
        sendMessage envSendsOk
          (invalidCredsMsg (jsOrOpt (envSendsOk.validate "mykey" "mytoken").error ""))) :=
  setCredential_validation_failure_no_mutation envSendsOk
    { msgFrom := { id := 9 }, chat := { id := 9, type := "private" },
      text := some "mykey\nmytoken" } removeWsState "mykey" "mytoken"
    (by decide) (by decide) (by decide) (by decide)

/-! ### C7 -/

/-- C7: for a chat holding a credential record, `handleRemoveWorkspace`
deletes the record — a subsequent `getToken` resolves the process-wide
default pair — and clears the chat's board/list configuration. -/
theorem removeWorkspace_restores_default_and_clears_config
    (env : BotEnv) (msg : Msg) (st : BotState) (record : TokenRecord)
    (h : storeLookup st.tokens (toString msg.chat.id) = some record) :
    storeLookup (handleRemoveWorkspaceMsg env msg st).1.tokens (toString msg.chat.id) = none ∧
    (getToken env.defaultApiKey env.defaultToken
        (handleRemoveWorkspaceMsg env msg st).1.tokens msg.chat.id env.now).2 =
      { apiKey := env.defaultApiKey, token := env.defaultToken,
        workspace := "Default Workspace" } ∧
    getChatConfig (handleRemoveWorkspaceMsg env msg st).1.chatConfigs msg.chat.id = {} := by
  have hc : hasCustomToken st.tokens msg.chat.id = true := by
    unfold hasCustomToken
    rw [h]
    rfl
  have hrm : removeToken st.tokens msg.chat.id =
      (storeErase st.tokens (toString msg.chat.id), true) := by
    unfold removeToken
    simp [h]
  have hst : (handleRemoveWorkspaceMsg env msg st).1 =
      { st with
        tokens := storeErase st.tokens (toString msg.chat.id)
        trelloServices := []
        chatConfigs := clearChatConfig st.chatConfigs msg.chat.id } := by
    unfold handleRemoveWorkspaceMsg
    simp [hc, hrm]
  rw [hst]
  refine ⟨storeLookup_storeErase st.tokens (toString msg.chat.id), ?_, ?_⟩
  · unfold getToken
    simp [storeLookup_storeErase]
  · unfold getChatConfig clearChatConfig
    simp [storeLookup_storeErase]

/-- Witness for C7 at chat `9`, which holds a custom record and a
board/list selection. -/
theorem removeWorkspace_restores_default_and_clears_config_witness :
    storeLookup (handleRemoveWorkspaceMsg envSendsOk removeWsMsg removeWsState).1.tokens
        (toString removeWsMsg.chat.id) = none ∧
    (getToken envSendsOk.defaultApiKey envSendsOk.defaultToken
        (handleRemoveWorkspaceMsg envSendsOk removeWsMsg removeWsState).1.tokens
        removeWsMsg.chat.id envSendsOk.now).2 =
      { apiKey := envSendsOk.defaultApiKey, token := envSendsOk.defaultToken,
        workspace := "Default Workspace" } ∧
    getChatConfig (handleRemoveWorkspaceMsg envSendsOk removeWsMsg removeWsState).1.chatConfigs
        removeWsMsg.chat.id = {} :=
  removeWorkspace_restores_default_and_clears_config envSendsOk removeWsMsg removeWsState
    sampleTokenRecord (by decide)

/-! ### C9 -/

/-- C9: a `requestAccess` call whose `(requester, chat)` pair matches
an existing pending request returns null and leaves the request list
(and the whole stored state) unchanged; moreover `addAccessRequest`
preserves the at-most-one-pending-request-per-pair invariant on any
state. -/
theorem requestAccess_pending_duplicate_suppressed
    (adminIds : List String) (stored : AuthState) (u n c t ty ts : String)
    (r : AccessRequest)
    (hr : r ∈ stored.pendingRequests) (hu : r.userId = u) (hc : r.chatId = c)
    (hs : r.status = "pending") :
    addAccessRequest adminIds stored u n c t ty ts = (stored, none) ∧
    ∀ s : AuthState, atMostOnePendingPerPair s.pendingRequests →
      atMostOnePendingPerPair (addAccessRequest adminIds s u n c t ty ts).1.pendingRequests := by
  constructor
  · have hex : (loadAuthorized adminIds stored).pendingRequests.any
        (fun req => req.userId == u && req.chatId == c) = true := by
      rw [loadAuthorized_pendingRequests]
      exact List.any_eq_true.mpr ⟨r, hr, by simp [hu, hc]⟩
    unfold addAccessRequest
    simp [hex]
  · intro s hinv
    unfold addAccessRequest
    by_cases hex : (loadAuthorized adminIds s).pendingRequests.any
        (fun req => req.userId == u && req.chatId == c) = true
    · simp only [hex, Bool.not_true]
      simpa using hinv
    · have hexf : (loadAuthorized adminIds s).pendingRequests.any
          (fun req => req.userId == u && req.chatId == c) = false :=
        Bool.not_eq_true _ ▸ eq_false_of_ne_true hex
      simp only [hexf, Bool.not_false, if_true]
      show atMostOnePendingPerPair (s.pendingRequests ++ [_])
      unfold atMostOnePendingPerPair
      rw [List.pairwise_append]
      refine ⟨hinv, List.pairwise_singleton _ _, ?_⟩
      intro a ha b hb
      rw [List.mem_singleton] at hb
      subst hb
      intro hcontra
      rw [loadAuthorized_pendingRequests] at hexf
      have hmem := List.any_eq_false.mp hexf a ha
      apply hmem
      simp [hcontra.2.2.1, hcontra.2.2.2]

/-- Witness for C9: a second identical request for the pending pair
`("5", "9")` is suppressed. -/
theorem requestAccess_pending_duplicate_suppressed_witness :
    addAccessRequest ["1"] authWithPending "5" "Bob" "9" "Chat" "user" "t1" =
      (authWithPending, none) :=
  (requestAccess_pending_duplicate_suppressed ["1"] authWithPending
    "5" "Bob" "9" "Chat" "user" "t1" reqPending (by decide) rfl rfl rfl).1

/-! ### C10 -/

/-- C10: `addAccessRequest` suppresses a new request whenever any prior
request with the same `(userId, chatId)` pair is stored, regardless of
its status; in particular, after `rejectRequest` flips a request to
`rejected`, a later request for the same pair still returns null and
creates nothing. -/
theorem requestAccess_suppresses_any_status
    (adminIds : List String) (n t ty ts : String) :
    (∀ (s : AuthState) (r : AccessRequest) (u c : String),
        r ∈ s.pendingRequests → r.userId = u → r.chatId = c →
        addAccessRequest adminIds s u n c t ty ts = (s, none)) ∧
    (∀ (stored stored2 : AuthState) (i : Nat) (req : AccessRequest),
        rejectRequest adminIds stored i = (stored2, some req) →
        addAccessRequest adminIds stored2 req.userId n req.chatId t ty ts = (stored2, none)) := by
  have part1 : ∀ (s : AuthState) (r : AccessRequest) (u c : String),
      r ∈ s.pendingRequests → r.userId = u → r.chatId = c →
      addAccessRequest adminIds s u n c t ty ts = (s, none) := by
    intro s r u c hr hu hc
    have hex : (loadAuthorized adminIds s).pendingRequests.any
        (fun req => req.userId == u && req.chatId == c) = true := by
      rw [loadAuthorized_pendingRequests]
      exact List.any_eq_true.mpr ⟨r, hr, by simp [hu, hc]⟩
    unfold addAccessRequest
    simp [hex]
  refine ⟨part1, ?_⟩
  intro stored stored2 i req hrej
  unfold rejectRequest at hrej
  by_cases hi : i < (loadAuthorized adminIds stored).pendingRequests.length
  · rw [dif_pos hi] at hrej
    have hfst := congrArg Prod.fst hrej
    have hsnd := congrArg Prod.snd hrej
    simp only at hfst hsnd
    have hreq : ({ (loadAuthorized adminIds stored).pendingRequests.get ⟨i, hi⟩ with
        status := "rejected" } : AccessRequest) = req := by
      exact Option.some.inj hsnd
    have hmem : req ∈ stored2.pendingRequests := by
      rw [← hfst]
      show req ∈ (loadAuthorized adminIds stored).pendingRequests.set i _
      rw [hreq]
      have hlen : i < ((loadAuthorized adminIds stored).pendingRequests.set i req).length := by
        simpa using hi
      have hget : ((loadAuthorized adminIds stored).pendingRequests.set i req).get
          ⟨i, hlen⟩ = req := by
        simp
      exact List.mem_iff_get.mpr ⟨⟨i, hlen⟩, hget⟩
    exact part1 stored2 req req.userId req.chatId hmem rfl rfl
  · rw [dif_neg hi] at hrej
    exact absurd (congrArg Prod.snd hrej) (by simp)

/-- Witness for C10: rejecting the pending request for pair
`("5", "9")` and then requesting again for the same pair is a no-op. -/
theorem requestAccess_suppresses_any_status_witness :
    addAccessRequest [] authWithRejected "5" "Bob" "9" "Chat" "user" "t1" =
      (authWithRejected, none) :=
  (requestAccess_suppresses_any_status [] "Bob" "Chat" "user" "t1").2
    authWithPending authWithRejected 0 reqRejected (by decide)

/-! ### C6

On the input `"Buy milk\n- 2% \n- https://example.com/milk"` the third
line, after its URL is removed and the line re-trimmed, is the single
character `"-"`; that no longer matches the bullet-marker pattern
`/^[-*•]\s+/` (which demands whitespace after the marker), so the
non-empty residue is pushed as the extra list item `"- -"`.  The
rendered description therefore differs from the claimed value. -/

/-- C6 counterexample: the rendered description of the claimed
round-trip input is not the claimed string. -/
theorem extract_roundtrip_counterexample :
    (extractUrlsFromText "Buy milk\n- 2% \n- https://example.com/milk").description ≠
      "Details:\n- 2%\n\nLinks:\n- https://example.com/milk" := by decide

/-- C6 amended: structuring `"Buy milk\n- 2% \n- https://example.com/milk"`
yields title `"Buy milk"` and urls `["https://example.com/milk"]` as
claimed, but the stored list items are `["- 2%", "- -"]` — the
URL-only bullet line leaves a stray `"- -"` item — and the rendered
description is `"Details:\n- 2%\n- -\n\nLinks:\n- https://example.com/milk"`. -/
theorem extract_roundtrip_amended :
    extractUrlsFromText "Buy milk\n- 2% \n- https://example.com/milk" =
      { cleanText := "Buy milk"
        urls := ["https://example.com/milk"]
        listItems := ["- 2%", "- -"]
        description := "Details:\n- 2%\n- -\n\nLinks:\n- https://example.com/milk" } := by
  decide

/-! ### C3

`handleWorkspaceSetup` has no try/catch: a rejected send inside it
escapes to the top-level `message` listener (bot.js lines 125-131),
which only logs, so the workspace-setup session survives the error.
Only the idea-capture branch of `handleSessionMessage` (and the cancel
branch of `handleMentions`) deletes the session on the error path. -/

/-- C3 counterexample: a workspace-setup session advanced with an
unparseable credential blob while the transport rejects every send.
The handler propagates the exception, yet the session is still stored
under its key afterwards — the claimed fail-closed deletion does not
happen for workspace-setup sessions. -/
theorem workspace_session_error_persists_counterexample :
    (handleMentions envAllSendsFail wsMsg wsState).2 = Except.error invalidFormatMsg ∧
    storeLookup (handleMentions envAllSendsFail wsMsg wsState).1.sessions "5" =
      some wsSession :=
  ⟨rfl, rfl⟩

theorem ideaTryBody_finished_error_sessions (env : BotEnv) (msg : Msg)
    (st st' : BotState) (e : String)
    (h : ideaSessionTryBody env msg st = (st', TryResult.finished (Except.error e))) :
    storeLookup st'.sessions (sessionKey msg) = none := by
  unfold ideaSessionTryBody at h
  simp only [] at h
  split at h
  · injection h with h1 h2
    subst h1
    exact storeLookup_storeErase _ _
  · split at h
    · injection h with h1 h2
      cases h2
    · split at h
      · injection h with h1 h2
        subst h1
        exact storeLookup_storeErase _ _
      · split at h
        · injection h with h1 h2
          injection h2 with h3
          cases h3
        · injection h with h1 h2
          cases h2

theorem ideaSessionCatch_error_sessions (env : BotEnv) (msg : Msg)
    (st st' : BotState) (e : String)
    (h : ideaSessionCatch env (sessionKey msg) (ideaSessionTryBody env msg st) =
      (st', Except.error e)) :
    storeLookup st'.sessions (sessionKey msg) = none := by
  rcases hres : ideaSessionTryBody env msg st with ⟨st2, r⟩
  rw [hres] at h
  cases r with
  | finished rr =>
    unfold ideaSessionCatch at h
    injection h with h1 h2
    subst h1
    subst h2
    exact ideaTryBody_finished_error_sessions env msg st _ e hres
  | caught ee =>
    unfold ideaSessionCatch at h
    injection h with h1 h2
    subst h1
    exact storeLookup_storeErase _ _

theorem handleSessionMessage_error_fail_closed (env : BotEnv) (msg : Msg)
    (session : Session) (st st' : BotState) (e : String)
    (hty : session.type ≠ "setworkspace")
    (h : handleSessionMessage env msg session st = (st', Except.error e)) :
    storeLookup st'.sessions (sessionKey msg) = none := by
  have htyb : (session.type == "setworkspace") = false := beq_false_of_ne hty
  unfold handleSessionMessage at h
  simp only [htyb, Bool.false_eq_true, if_false] at h
  split at h
  · exact ideaSessionCatch_error_sessions env msg _ st' e h
  · injection h with h1 h2
    cases h2

/-- C3 amended: for any session that is not a workspace-setup session
(idea-capture sessions, and the cancel path), an exception escaping the
message handler leaves no session under the key — the session is
deleted before the error reaches the logging boundary.  Workspace-setup
sessions are exempt: the counterexample shows one persisting past the
error. -/
theorem session_error_fail_closed_for_idea_sessions
    (env : BotEnv) (msg : Msg) (st st' : BotState) (e : String)
    (hty : ∀ s, storeLookup st.sessions (sessionKey msg) = some s →
      s.type ≠ "setworkspace")
    (h : handleMentions env msg st = (st', Except.error e)) :
    storeLookup st'.sessions (sessionKey msg) = none := by
  unfold handleMentions at h
  cases htext : msg.text with
  | none =>
    rw [htext] at h
    injection h with h1 h2
    cases h2
  | some text =>
    simp only [htext] at h
    split at h
    · injection h with h1 h2
      cases h2
    · split at h
      · injection h with h1 h2
        subst h1
        exact storeLookup_storeErase _ _
      · split at h
        · rename_i session heq
          refine handleSessionMessage_error_fail_closed env msg _ _ st' e ?_ h
          rw [mentionUpdatedSession_type]
          exact hty session heq
        · injection h with h1 h2
          cases h2

/-- Witness for the amended C3: an idea-capture session with no board
configured and a failing transport; the handler errors and the session
is gone. -/
theorem session_error_fail_closed_for_idea_sessions_witness :
    storeLookup (handleMentions envAllSendsFail ideaMsg ideaStateNoBoard).1.sessions
      (sessionKey ideaMsg) = none :=
  session_error_fail_closed_for_idea_sessions envAllSendsFail ideaMsg ideaStateNoBoard
    (handleMentions envAllSendsFail ideaMsg ideaStateNoBoard).1 noBoardMsg
    (fun s hs => by
      have h1 : ideaSession = s := Option.some.inj hs
      rw [← h1]
      decide)
    rfl

/-! ### C8 -/

theorem handleMentions_to_session (env : BotEnv) (msg : Msg) (st : BotState)
    (t : String) (session : Session)
    (htext : msg.text = some t)
    (hcmd : jsStartsWith t "/" = false)
    (hnc : (t == "/cancel") = false)
    (hsess : storeLookup st.sessions (sessionKey msg) = some session) :
    handleMentions env msg st =
      handleSessionMessage env msg (mentionUpdatedSession msg session)
        { st with sessions :=
            storeInsert st.sessions (sessionKey msg) (mentionUpdatedSession msg session) } := by
  unfold handleMentions
  simp only [htext, hcmd, Bool.false_and, Bool.false_eq_true, if_false, hnc, hsess,
    Option.isSome_some, Bool.and_true, Bool.and_false, ite_false]

theorem handleSessionMessage_idea (env : BotEnv) (msg : Msg) (session : Session)
    (st : BotState)
    (htyb : (session.type == "setworkspace") = false)
    (hstepb : (session.step == "waiting_for_idea") = true) :
    handleSessionMessage env msg session st =
      ideaSessionCatch env (sessionKey msg)
        (ideaSessionTryBody env msg
          { st with sessions :=
              storeInsert st.sessions (sessionKey msg) (advancedIdeaSession msg session) }) := by
  unfold handleSessionMessage
  simp only [htyb, Bool.false_eq_true, if_false, hstepb, if_true]

theorem ideaSessionTryBody_success (env : BotEnv) (msg : Msg) (st : BotState)
    (b : String) (lists : List BoardList)
    (hboard : (getChatConfig st.chatConfigs msg.chat.id).boardId = some b)
    (hb : (b == "") = false)
    (hlists : env.boardLists
        ((getToken env.defaultApiKey env.defaultToken st.tokens msg.chat.id env.now).2.apiKey
          ++ ":"
          ++ (getToken env.defaultApiKey env.defaultToken st.tokens msg.chat.id env.now).2.token)
        b = Except.ok lists)
    (hne : lists.isEmpty = false)
    (hsend : env.sendFails (selectListMsg (msg.text.getD "")) = false) :
    ideaSessionTryBody env msg st =
      ((getTrelloService env st msg.chat.id).1, TryResult.finished (Except.ok ())) := by
  unfold ideaSessionTryBody
  simp only [hboard, jsFalsyOpt, hb, Bool.false_eq_true, if_false, Option.getD_some,
    getTrelloService, hlists, hne, sendMessage, hsend, ite_false]

theorem getTrelloService_sessions (env : BotEnv) (st : BotState) (chatId : Int) :
    (getTrelloService env st chatId).1.sessions = st.sessions := rfl

theorem handleMentions_cancel_deletes (env : BotEnv) (msg2 : Msg) (st : BotState)
    (session : Session)
    (htext : msg2.text = some "/cancel")
    (hsess : storeLookup st.sessions (sessionKey msg2) = some session) :
    storeLookup (handleMentions env msg2 st).1.sessions (sessionKey msg2) = none := by
  unfold handleMentions
  simp only [htext, hsess, Option.isSome_some, Bool.and_true]
  have hc : (jsStartsWith "/cancel" "/" && "/cancel" != "/cancel") = false := by decide
  have he : ("/cancel" == "/cancel") = true := by decide
  simp only [hc, Bool.false_eq_true, if_false, he, if_true]
  exact storeLookup_storeErase _ _

/-- C8: a session in `waiting_for_idea` receiving a plain-text message
(with a board configured, at least one list available and the transport
delivering) stays stored under the same key with step
`waiting_for_list`; an explicit `/cancel` at that point deletes the
session, so the subsequent lookup under that key is absent. -/
theorem idea_session_advances_then_cancel_deletes
    (env : BotEnv) (msg : Msg) (st : BotState) (session : Session)
    (t b : String) (lists : List BoardList)
    (htext : msg.text = some t)
    (hcmd : jsStartsWith t "/" = false)
    (hsess : storeLookup st.sessions (sessionKey msg) = some session)
    (hty : session.type ≠ "setworkspace")
    (hstep : session.step = "waiting_for_idea")
    (hboard : (getChatConfig st.chatConfigs msg.chat.id).boardId = some b)
    (hb : b ≠ "")
    (hlists : env.boardLists
        ((getToken env.defaultApiKey env.defaultToken st.tokens msg.chat.id env.now).2.apiKey
          ++ ":"
          ++ (getToken env.defaultApiKey env.defaultToken st.tokens msg.chat.id env.now).2.token)
        b = Except.ok lists)
    (hne : lists ≠ [])
    (hsend : ∀ m, env.sendFails m = false) :
    ∃ s' : Session,
      storeLookup (handleMentions env msg st).1.sessions (sessionKey msg) = some s' ∧
      s'.step = "waiting_for_list" ∧
      storeLookup
        (handleMentions env { msg with text := some "/cancel" }
          (handleMentions env msg st).1).1.sessions
        (sessionKey msg) = none := by
  have hnc : (t == "/cancel") = false := by
    refine beq_false_of_ne (fun hh => ?_)
    rw [hh] at hcmd
    exact absurd hcmd (by decide)
  have htyb : ((mentionUpdatedSession msg session).type == "setworkspace") = false := by
    rw [mentionUpdatedSession_type]
    exact beq_false_of_ne hty
  have hstepb : ((mentionUpdatedSession msg session).step == "waiting_for_idea") = true := by
    rw [mentionUpdatedSession_step, hstep]
    rfl
  have hbb : (b == "") = false := beq_false_of_ne hb
  have hle : lists.isEmpty = false := by
    cases lists with
    | nil => exact absurd rfl hne
    | cons a as => rfl
  set session1 := mentionUpdatedSession msg session with hsession1
  set st1 : BotState :=
    { st with sessions := storeInsert st.sessions (sessionKey msg) session1 } with hst1
  set session2 := advancedIdeaSession msg session1 with hsession2
  set st2 : BotState :=
    { st1 with sessions := storeInsert st1.sessions (sessionKey msg) session2 } with hst2
  have hm1 : handleMentions env msg st = handleSessionMessage env msg session1 st1 :=
    handleMentions_to_session env msg st t session htext hcmd hnc hsess
  have hm2 : handleSessionMessage env msg session1 st1 =
      ideaSessionCatch env (sessionKey msg) (ideaSessionTryBody env msg st2) :=
    handleSessionMessage_idea env msg session1 st1 htyb hstepb
  have hm3 : ideaSessionTryBody env msg st2 =
      ((getTrelloService env st2 msg.chat.id).1, TryResult.finished (Except.ok ())) := by
    refine ideaSessionTryBody_success env msg st2 b lists ?_ hbb ?_ hle (hsend _)
    · exact hboard
    · exact hlists
  have hfinal : (handleMentions env msg st).1 = (getTrelloService env st2 msg.chat.id).1 := by
    rw [hm1, hm2, hm3]
    rfl
  have hlook : storeLookup (handleMentions env msg st).1.sessions (sessionKey msg) =
      some session2 := by
    rw [hfinal, getTrelloService_sessions]
    exact storeLookup_storeInsert_self _ _ _
  refine ⟨session2, hlook, rfl, ?_⟩
  exact handleMentions_cancel_deletes env { msg with text := some "/cancel" }
    (handleMentions env msg st).1 session2 rfl hlook

/-- Witness for C8: the concrete idea session in chat `7` with board
`B1` configured and one list available. -/
theorem idea_session_advances_then_cancel_deletes_witness :
    ∃ s' : Session,
      storeLookup (handleMentions envSendsOk ideaMsg ideaStateWithBoard).1.sessions
        (sessionKey ideaMsg) = some s' ∧
      s'.step = "waiting_for_list" ∧
      storeLookup
        (handleMentions envSendsOk { ideaMsg with text := some "/cancel" }
          (handleMentions envSendsOk ideaMsg ideaStateWithBoard).1).1.sessions
        (sessionKey ideaMsg) = none :=
  idea_session_advances_then_cancel_deletes envSendsOk ideaMsg ideaStateWithBoard
    ideaSession "my idea" "B1" [{ id := "L1", name := "Todo" }]
    rfl (by decide) (by decide) (by decide) rfl rfl (by decide) rfl (by decide)
    (fun _ => rfl)

end TrelloBot
